import Mathlib

/-!
Verification development for the ENEM API client (`enem_api.py`).

The client is a thin synchronous wrapper over a public HTTP API:
it issues GET requests, retries transient statuses via a configured
urllib3 `Retry` policy, normalizes the two observed response envelope
shapes into a single list form, filters exams by year, and dispatches
four CLI subcommands, translating failures into process exit messages.

The embedding below is shallow: decoded JSON bodies are a `Json`
inductive; the network is an explicit function from requests to
responses-or-errors; Python exceptions become an `Err` sum carried in
`Except`.  Every definition is translated from the Python source;
doc comments point back to the function each one embeds.
-/

namespace EnemApi

/-- A decoded JSON value as produced by `resp.json()`.  Numbers are
modelled as integers (the fields this client inspects are integral);
objects are association lists — bodies decoded by Python's `json`
module have unique keys, and lookup takes the first binding, which
coincides with dict lookup on such bodies. -/
inductive Json where
  | null
  | bool (b : Bool)
  | num (n : Int)
  | str (s : String)
  | arr (elems : List Json)
  | obj (fields : List (String × Json))

/-- Python dict key lookup on a decoded JSON object: first binding wins
(decoded objects have unique keys). -/
def dictLookup : List (String × Json) → String → Option Json
  | [], _ => none
  | (k, v) :: rest, key => if k = key then some v else dictLookup rest key

/-- Python `d.get(key, default)`. -/
def dictGet (fields : List (String × Json)) (key : String) (default : Json) : Json :=
  (dictLookup fields key).getD default

/-- The response-shape handling shared verbatim by `list_exams`
(enem_api.py lines 33-37) and `list_questions` (lines 57-61):
`if isinstance(data, dict) and "items" in data: return data["items"]`,
then `if isinstance(data, list): return data`, else `return [data]`.
Note the `items` value is returned as-is, whatever its shape. -/
def normalize (data : Json) : Json :=
  match data with
  | .obj fields =>
      match dictLookup fields "items" with
      | some items => items
      | none => .arr [.obj fields]
  | .arr xs => .arr xs
  | other => .arr [other]

/-- The Python exceptions this program can raise.  `httpError` is
`requests.HTTPError` (carrying the response's status code and text);
`retryError` is `requests.exceptions.RetryError` (urllib3
`MaxRetryError` after status retries are exhausted) and
`connectionError` covers the other transport failures — both are
`requests.RequestException` but not `HTTPError`.  `valueError`,
`typeError` and `attributeError` are the builtin exceptions reachable
from `int(...)` and `.get`. -/
inductive Err where
  | httpError (status : Nat) (text : String)
  | retryError (msg : String)
  | connectionError (msg : String)
  | valueError
  | typeError
  | attributeError
deriving DecidableEq, Repr

/-- `requests.HTTPError` test (the first `except` clause). -/
def Err.isHTTPError : Err → Bool
  | .httpError _ _ => true
  | _ => false

/-- `requests.RequestException` test (the second `except` clause);
`HTTPError` and `RetryError` are both subclasses. -/
def Err.isRequestException : Err → Bool
  | .httpError _ _ => true
  | .retryError _ => true
  | .connectionError _ => true
  | _ => false

/-- Digits of a Python int literal body; `none` when empty or when a
non-digit appears. -/
def digitsToNat : List Char → Option Nat
  | [] => none
  | cs =>
    cs.foldl
      (fun acc c =>
        match acc with
        | none => none
        | some n => if c.isDigit then some (n * 10 + (c.toNat - 48)) else none)
      (some 0)

/-- Python `int(s)` on a string: surrounding whitespace is stripped, an
optional sign precedes a nonempty digit run; anything else raises
`ValueError` (`none` here).  Underscore digit grouping is not modelled. -/
def parseIntString (s : String) : Option Int :=
  let cs := s.toList.dropWhile Char.isWhitespace
  let cs := (cs.reverse.dropWhile Char.isWhitespace).reverse
  match cs with
  | '-' :: rest => (digitsToNat rest).map (fun n => -(n : Int))
  | '+' :: rest => (digitsToNat rest).map (fun n => (n : Int))
  | rest => (digitsToNat rest).map (fun n => (n : Int))

/-- Python `int(v)` on a JSON-decoded value: ints pass through, bools
coerce to 0/1, strings are parsed (ValueError when unparseable), and
`None`/lists/dicts raise TypeError. -/
def pyInt : Json → Except Err Int
  | .num n => .ok n
  | .bool b => .ok (if b then 1 else 0)
  | .str s =>
    match parseIntString s with
    | some n => .ok n
    | none => .error .valueError
  | _ => .error .typeError

/-- `int(e.get("year", -1))` for one scanned record `e`
(enem_api.py line 43).  A non-dict record raises `AttributeError`
at `.get`; a present but unparseable value raises from `int`. -/
def recordYear : Json → Except Err Int
  | .obj fields => pyInt (dictGet fields "year" (.num (-1)))
  | _ => .error .attributeError

/-- The scan loop of `get_exam_by_year` (enem_api.py lines 42-45),
abstracted over the already-fetched exam list: return the first record
whose coerced year equals the requested year, else `none`; exceptions
from the coercion propagate. -/
def get_exam_by_year (exams : List Json) (year : Int) : Except Err (Option Json) :=
  match exams with
  | [] => .ok none
  | e :: rest => do
    let y ← recordYear e
    if y = year then .ok (some e) else get_exam_by_year rest year

/-- Whether a record's coerced year equals `y` (specification-side
predicate used to state first-match properties). -/
def matchesYear (y : Int) (e : Json) : Bool :=
  match recordYear e with
  | .ok n => n == y
  | .error _ => false

/-- Whether the coercion of a record's year succeeds. -/
def yearCoercible (e : Json) : Bool :=
  match recordYear e with
  | .ok _ => true
  | .error _ => false

/-- An HTTP response as seen above the retry layer: its status code,
its decoded JSON body (`resp.json()`) and its raw text (`resp.text`). -/
structure HttpResponse where
  status : Nat
  body : Json
  text : String

/-- One GET request as issued by the client: the path below the base
URL, the query parameters (`params=`) and the timeout argument. -/
structure Request where
  path : String
  params : List (String × Json)
  timeout : Nat

/-- The network abstraction: what one GET request comes back as, after
the session's transport and retry layer — either a response or a raised
`requests` exception. -/
def Net : Type := Request → Except Err HttpResponse

/-- `resp.raise_for_status()`: raises `requests.HTTPError` exactly for
4xx and 5xx status codes, carrying the status and the response text. -/
def raise_for_status (r : HttpResponse) : Except Err HttpResponse :=
  if 400 ≤ r.status ∧ r.status < 600 then .error (.httpError r.status r.text) else .ok r

/-- The request issued by `list_exams`: `GET {BASE_URL}/exams`, no
query parameters, `timeout=20`. -/
def examsRequest : Request := ⟨"/exams", [], 20⟩

/-- The request issued by `list_questions(**params)`:
`GET {BASE_URL}/questions` with `params` forwarded verbatim,
`timeout=30`. -/
def questionsRequest (params : List (String × Json)) : Request :=
  ⟨"/questions", params, 30⟩

/-- The request issued by `get_question(question_id)`:
`GET {BASE_URL}/questions/{question_id}`, `timeout=20`. -/
def questionRequest (qid : String) : Request := ⟨"/questions/" ++ qid, [], 20⟩

/-- `list_exams` (enem_api.py lines 26-37): GET `/exams`,
raise for status, decode, normalize the envelope. -/
def list_exams (net : Net) : Except Err Json := do
  let resp ← net examsRequest
  let resp ← raise_for_status resp
  pure (normalize resp.body)

/-- `list_questions` (enem_api.py lines 48-61): GET `/questions` with
the caller's params forwarded verbatim, raise for status, decode,
normalize the envelope. -/
def list_questions (net : Net) (params : List (String × Json)) : Except Err Json := do
  let resp ← net (questionsRequest params)
  let resp ← raise_for_status resp
  pure (normalize resp.body)

/-- `get_question` (enem_api.py lines 63-68): GET `/questions/{id}`,
raise for status, and return the decoded body unchanged — no envelope
normalization here. -/
def get_question (net : Net) (qid : String) : Except Err Json := do
  let resp ← net (questionRequest qid)
  let resp ← raise_for_status resp
  pure resp.body

/-- Python iteration `for e in exams` over whatever `list_exams`
returned: lists yield their elements, dicts their keys, strings their
characters; other values raise TypeError. -/
def pyIter : Json → Except Err (List Json)
  | .arr xs => .ok xs
  | .obj fields => .ok (fields.map (fun f => Json.str f.1))
  | .str s => .ok (s.toList.map (fun c => Json.str (String.singleton c)))
  | _ => .error .typeError

/-- Python truthiness of a JSON-decoded value: `None`, `False`, `0`,
`""`, `[]` and `\x7b\x7d` are falsy. -/
def pyTruthy : Json → Bool
  | .null => false
  | .bool b => b
  | .num n => n != 0
  | .str s => !s.isEmpty
  | .arr xs => !xs.isEmpty
  | .obj fields => !fields.isEmpty

/-- Truthiness test performed by `if not exam:` on the
`Optional[Dict]` returned by `get_exam_by_year`. -/
def optionFalsy : Option Json → Bool
  | none => true
  | some j => !pyTruthy j

/-- Lowercase hex digit, as `json.dumps` emits in `\uXXXX` escapes. -/
def hexDigit (n : Nat) : Char :=
  if n < 10 then Char.ofNat (48 + n) else Char.ofNat (87 + n)

/-- One character of a JSON string under `ensure_ascii=False`: only
the quote, the backslash and control characters below 0x20 are
escaped; everything else — non-ASCII included — is emitted raw. -/
def escapeChar (c : Char) : String :=
  if c = '"' then "\\\""
  else if c = '\\' then "\\\\"
  else if c = '\n' then "\\n"
  else if c = '\t' then "\\t"
  else if c = '\r' then "\\r"
  else if c = '\x08' then "\\b"
  else if c = '\x0c' then "\\f"
  else if c.toNat < 32 then
    "\\u00" ++ String.singleton (hexDigit (c.toNat / 16)) ++
      String.singleton (hexDigit (c.toNat % 16))
  else String.singleton c

/-- A JSON string literal under `ensure_ascii=False`. -/
def encodeString (s : String) : String :=
  "\"" ++ String.join (s.toList.map escapeChar) ++ "\""

/-- `indent=2`: the prefix for nesting depth `level`. -/
def indentStr (level : Nat) : String :=
  String.join (List.replicate (level * 2) " ")

mutual

/-- `json.dumps(j, ensure_ascii=False, indent=2)` at nesting depth
`level`: empty containers print inline; nonempty ones put each item on
its own line, separated by commas, with `": "` between key and value
and the closing bracket back at the enclosing indent. -/
def renderJson (level : Nat) : Json → String
  | .null => "null"
  | .bool true => "true"
  | .bool false => "false"
  | .num n => toString n
  | .str s => encodeString s
  | .arr [] => "[]"
  | .arr (x :: xs) =>
    "[\n" ++ renderArrayItems (level + 1) (x :: xs) ++ "\n" ++ indentStr level ++ "]"
  | .obj [] => "\x7b\x7d"
  | .obj (f :: fs) =>
    "\x7b\n" ++ renderObjItems (level + 1) (f :: fs) ++ "\n" ++ indentStr level ++ "\x7d"

/-- The comma-and-newline separated items of an array. -/
def renderArrayItems (level : Nat) : List Json → String
  | [] => ""
  | [x] => indentStr level ++ renderJson level x
  | x :: y :: ys =>
    indentStr level ++ renderJson level x ++ ",\n" ++ renderArrayItems level (y :: ys)

/-- The comma-and-newline separated members of an object. -/
def renderObjItems (level : Nat) : List (String × Json) → String
  | [] => ""
  | [(k, v)] => indentStr level ++ encodeString k ++ ": " ++ renderJson level v
  | (k, v) :: g :: gs =>
    indentStr level ++ encodeString k ++ ": " ++ renderJson level v ++ ",\n" ++
      renderObjItems level (g :: gs)

end

/-- `pretty` (enem_api.py lines 71-72):
`json.dumps(obj, ensure_ascii=False, indent=2)`. -/
def pretty (j : Json) : String := renderJson 0 j

/-- A parsed command line, after argparse: the chosen subcommand with
its flags.  Required flags (`exam --year`, `question --id`) are carried
directly; the optional `questions` filters are `Option`s (`None` when
the flag was not supplied). -/
inductive Cmd where
  | exams
  | exam (year : Int)
  | questions (year : Option Int) (discipline : Option String)
      (language : Option String) (page : Option Int)
  | question (id : String)

/-- The dict comprehension of the `questions` branch (enem_api.py
lines 104-107): keep exactly the keys among `year`, `discipline`,
`language`, `page` whose parsed value is not `None`. -/
def questionsParams (year : Option Int) (discipline : Option String)
    (language : Option String) (page : Option Int) : List (String × Json) :=
  (match year with | some n => [("year", Json.num n)] | none => [])
    ++ (match discipline with | some s => [("discipline", Json.str s)] | none => [])
    ++ (match language with | some s => [("language", Json.str s)] | none => [])
    ++ (match page with | some n => [("page", Json.num n)] | none => [])

/-- How one process invocation ends: `success s` prints `s` to stdout
and exits 0; `failure m` is `sys.exit(m)` — `m` on stderr, exit code 1;
`uncaught e` is an exception no handler catches — traceback on stderr,
exit code 1. -/
inductive ExitResult where
  | success (stdout : String)
  | failure (message : String)
  | uncaught (e : Err)

/-- The process exit status of an `ExitResult`. -/
def exitCode : ExitResult → Nat
  | .success _ => 0
  | .failure _ => 1
  | .uncaught _ => 1

/-- The body of the `try:` block of the dispatcher (enem_api.py lines
95-110): run the chosen subcommand; exceptions escape as `.error`. -/
def runCmd (net : Net) : Cmd → Except Err ExitResult
  | .exams => do
    let result ← list_exams net
    pure (.success (pretty result))
  | .exam y => do
    let body ← list_exams net
    let exams ← pyIter body
    let exam ← get_exam_by_year exams y
    if optionFalsy exam then
      pure (.failure ("Nenhuma prova encontrada para " ++ toString y ++ "."))
    else
      pure (.success (pretty (exam.getD .null)))
  | .questions y d l p => do
    let result ← list_questions net (questionsParams y d l p)
    pure (.success (pretty result))
  | .question qid => do
    let result ← get_question net qid
    pure (.success (pretty result))

/-- The dispatcher with its `except` clauses (enem_api.py lines
95-115): `requests.HTTPError` becomes
`sys.exit(f"Erro HTTP {status}: {text}")`, any other
`requests.RequestException` becomes `sys.exit(f"Erro de rede: {e}")`,
and the remaining exceptions propagate uncaught. -/
def mainRun (net : Net) (c : Cmd) : ExitResult :=
  match runCmd net c with
  | .ok r => r
  | .error (.httpError st txt) => .failure ("Erro HTTP " ++ toString st ++ ": " ++ txt)
  | .error (.retryError m) => .failure ("Erro de rede: " ++ m)
  | .error (.connectionError m) => .failure ("Erro de rede: " ++ m)
  | .error e => .uncaught e

/-!
The retry layer.  `_session` (enem_api.py lines 13-23) mounts an
`HTTPAdapter` configured with
`Retry(total=3, backoff_factor=0.5, status_forcelist=(429, 500, 502, 503, 504), allowed_methods=frozenset(["GET"]))`.
The loop below is modelled from the documented semantics of
urllib3's `Retry` / `HTTPConnectionPool.urlopen` (third-party code,
not part of this repository): `total` counts *retries*, so the initial
attempt is not charged against it; a response whose status is in the
forcelist for an allowed method consumes one retry and the request is
re-issued after a backoff sleep; when the retry budget is exhausted
(`total` would drop below 0) a `MaxRetryError` is raised, which
`requests` surfaces as `requests.exceptions.RetryError` — a
`RequestException`, not an `HTTPError`; a response whose status is not
retried is returned to the caller (where `raise_for_status` may still
raise).  Backoff sleeps follow the documented `get_backoff_time`:
0 while the consecutive-error count is at most 1 — so no sleep before
the first retry — and `backoff_factor * 2 ** (consecutive_errors - 1)`
from the second retry on (sleeps `0, 1.0, 2.0` for factor 0.5).
-/

/-- `status_forcelist=(429, 500, 502, 503, 504)`. -/
def statusForcelist : List Nat := [429, 500, 502, 503, 504]

/-- `allowed_methods=frozenset(["GET"])`. -/
def allowedMethods : List String := ["GET"]

/-- `total=3`: the retry budget. -/
def retryTotal : Int := 3

/-- `backoff_factor=0.5`. -/
def backoffFactor : Rat := 1 / 2

/-- `Retry.is_retry`: retry when the method is allowed and the status
is in the forcelist. -/
def isRetry (method : String) (status : Nat) : Bool :=
  allowedMethods.contains method && statusForcelist.contains status

/-- `Retry.get_backoff_time` before the `n`-th consecutive retry:
0 while the consecutive-error count is at most 1, and
`backoff_factor * 2 ** (n - 1)` afterwards. -/
def backoffTime (n : Nat) : Rat :=
  if n ≤ 1 then 0 else backoffFactor * (2 ^ (n - 1) : Nat)

/-- What one GET comes back as under the retry policy, together with
how many attempts reached the server and which backoff sleeps were
performed. -/
structure RetryOutcome where
  result : Except Err HttpResponse
  attempts : Nat
  sleeps : List Rat

/-- The urllib3 retry loop over a script of server responses (the
`k`-th element answers the `k`-th attempt): a retryable status consumes
one unit of `total` and re-issues the request after the backoff sleep;
an exhausted budget raises `MaxRetryError`, surfaced as `RetryError`; a
non-retryable status is returned.  An exhausted script stands for a
connection-level failure. -/
def runRetries (method : String) (total : Int) (errCount : Nat) :
    List HttpResponse → RetryOutcome
  | [] => ⟨.error (.connectionError "connection failed"), 0, []⟩
  | r :: rest =>
    if isRetry method r.status then
      if total - 1 < 0 then
        ⟨.error (.retryError ("too many " ++ toString r.status ++ " error responses")),
          1, []⟩
      else
        let tail := runRetries method (total - 1) (errCount + 1) rest
        ⟨tail.result, tail.attempts + 1, backoffTime (errCount + 1) :: tail.sleeps⟩
    else
      ⟨.ok r, 1, []⟩

/-- One GET as issued by this client's session: method GET under the
`Retry` policy of `_session`. -/
def performGet (script : List HttpResponse) : RetryOutcome :=
  runRetries "GET" retryTotal 0 script

/-- A server that always answers 200 with the given body. -/
def constNet (body : Json) : Net := fun _ => .ok ⟨200, body, ""⟩

/-- A server that echoes back the query-parameter keys it received,
as a JSON array of strings. -/
def echoNet : Net := fun req => .ok ⟨200, .arr (req.params.map (fun p => Json.str p.1)), ""⟩

/-!  ## Shared lemmas  -/

theorem except_bind_ok {α β : Type} (a : α) (f : α → Except Err β) :
    ((Except.ok a : Except Err α) >>= f) = f a := rfl

theorem except_bind_error {α β : Type} (e : Err) (f : α → Except Err β) :
    ((Except.error e : Except Err α) >>= f) = .error e := rfl

theorem raise_for_status_ok (r : HttpResponse) (h : r.status < 400) :
    raise_for_status r = .ok r := by
  unfold raise_for_status
  rw [if_neg (by omega : ¬(400 ≤ r.status ∧ r.status < 600))]

theorem list_exams_ok (net : Net) (r : HttpResponse)
    (h : net examsRequest = .ok r) (hs : r.status < 400) :
    list_exams net = .ok (normalize r.body) := by
  unfold list_exams
  rw [h, except_bind_ok, raise_for_status_ok r hs, except_bind_ok]
  rfl

theorem list_questions_ok (net : Net) (ps : List (String × Json)) (r : HttpResponse)
    (h : net (questionsRequest ps) = .ok r) (hs : r.status < 400) :
    list_questions net ps = .ok (normalize r.body) := by
  unfold list_questions
  rw [h, except_bind_ok, raise_for_status_ok r hs, except_bind_ok]
  rfl

theorem get_question_ok (net : Net) (qid : String) (r : HttpResponse)
    (h : net (questionRequest qid) = .ok r) (hs : r.status < 400) :
    get_question net qid = .ok r.body := by
  unfold get_question
  rw [h, except_bind_ok, raise_for_status_ok r hs, except_bind_ok]
  rfl

theorem list_exams_propagates (net : Net) (e : Err)
    (h : net examsRequest = .error e) : list_exams net = .error e := by
  unfold list_exams
  rw [h, except_bind_error]

theorem list_questions_propagates (net : Net) (ps : List (String × Json)) (e : Err)
    (h : net (questionsRequest ps) = .error e) : list_questions net ps = .error e := by
  unfold list_questions
  rw [h, except_bind_error]

theorem get_question_propagates (net : Net) (qid : String) (e : Err)
    (h : net (questionRequest qid) = .error e) : get_question net qid = .error e := by
  unfold get_question
  rw [h, except_bind_error]

/-!  ## Claim theorems  -/

/-- C1: for every decoded JSON response body handled by `list_exams`
and `list_questions`, the normalizer applies this precedence: an
object containing a key `items` yields that key's value as the result
sequence; otherwise an array is returned unchanged and in order;
otherwise the value is wrapped as a one-element list — the `items`
check taking precedence over the array check. -/
theorem normalize_precedence_spec :
    (∀ fields v, dictLookup fields "items" = some v →
      normalize (.obj fields) = v) ∧
    (∀ xs, normalize (.arr xs) = .arr xs) ∧
    (∀ fields, dictLookup fields "items" = none →
      normalize (.obj fields) = .arr [.obj fields]) ∧
    (normalize .null = .arr [.null]) ∧
    (∀ b, normalize (.bool b) = .arr [.bool b]) ∧
    (∀ n, normalize (.num n) = .arr [.num n]) ∧
    (∀ s, normalize (.str s) = .arr [.str s]) ∧
    (∀ net r, net examsRequest = .ok r → r.status < 400 →
      list_exams net = .ok (normalize r.body)) ∧
    (∀ net ps r, net (questionsRequest ps) = .ok r → r.status < 400 →
      list_questions net ps = .ok (normalize r.body)) := by
  refine ⟨?_, fun xs => rfl, ?_, rfl, fun b => rfl, fun n => rfl, fun s => rfl,
    list_exams_ok, list_questions_ok⟩
  · intro fields v h
    simp [normalize, h]
  · intro fields h
    simp [normalize, h]

/-- Witness for C1 at concrete inputs: an enveloped body, a bare
array, a plain object and a scalar, plus both list endpoints against a
concrete 200 server. -/
theorem normalize_precedence_spec_witness :
    normalize (.obj [("items", .arr [.num 1, .num 2])]) = .arr [.num 1, .num 2] ∧
    normalize (.arr [.num 3]) = .arr [.num 3] ∧
    normalize (.obj [("year", .num 2020)]) = .arr [.obj [("year", .num 2020)]] ∧
    normalize (.num 7) = .arr [.num 7] ∧
    list_exams (constNet (.obj [("items", .arr [.num 1])])) = .ok (.arr [.num 1]) ∧
    list_questions (constNet (.arr [.num 4])) [] = .ok (.arr [.num 4]) :=
  ⟨normalize_precedence_spec.1 [("items", .arr [.num 1, .num 2])] _ rfl,
   normalize_precedence_spec.2.1 [.num 3],
   normalize_precedence_spec.2.2.1 [("year", .num 2020)] rfl,
   normalize_precedence_spec.2.2.2.2.2.1 7,
   normalize_precedence_spec.2.2.2.2.2.2.2.1 (constNet (.obj [("items", .arr [.num 1])]))
     ⟨200, .obj [("items", .arr [.num 1])], ""⟩ rfl (by decide),
   normalize_precedence_spec.2.2.2.2.2.2.2.2 (constNet (.arr [.num 4])) []
     ⟨200, .arr [.num 4], ""⟩ rfl (by decide)⟩

/-- C2, counterexample: a record whose `year` field is present but not
parseable as an integer makes `get_exam_by_year` raise `ValueError`
(from `int("abc")`), refuting both the -1 default for unparseable
present values and the no-raise guarantee. -/
theorem year_coercion_counterexample :
    get_exam_by_year [Json.obj [("year", Json.str "abc")]] 2020 = .error .valueError ∧
    recordYear (Json.obj [("year", Json.str "abc")]) = .error .valueError := by
  exact ⟨rfl, rfl⟩

/-- C2, amended: each scanned record's `year` field is coerced with
`int`, and -1 is used in its place only when the field is absent; when
the field is present, `int` is applied to its value, so a present but
unparseable string raises `ValueError`, which `get_exam_by_year`
propagates instead of defaulting to -1. -/
theorem year_coercion_amended :
    (∀ fields, dictLookup fields "year" = none →
      recordYear (.obj fields) = .ok (-1)) ∧
    (∀ fields v, dictLookup fields "year" = some v →
      recordYear (.obj fields) = pyInt v) ∧
    (∀ s, parseIntString s = none → pyInt (.str s) = .error .valueError) ∧
    (∀ e rest year err, recordYear e = .error err →
      get_exam_by_year (e :: rest) year = .error err) := by
  refine ⟨?_, ?_, ?_, ?_⟩
  · intro fields h
    simp [recordYear, dictGet, h, pyInt]
  · intro fields v h
    simp [recordYear, dictGet, h]
  · intro s h
    simp [pyInt, h]
  · intro e rest year err h
    unfold get_exam_by_year
    rw [h, except_bind_error]

/-- Witness for C2 at concrete inputs: an absent field, a present
numeric field, the unparseable string "abc", and the propagation of
the raise through the scan. -/
theorem year_coercion_amended_witness :
    recordYear (.obj [("id", .str "x")]) = .ok (-1) ∧
    recordYear (.obj [("year", .num 2019)]) = pyInt (.num 2019) ∧
    pyInt (.str "abc") = .error .valueError ∧
    get_exam_by_year [Json.obj [("year", Json.null)], Json.obj [("year", .num 2020)]] 2020 =
      .error .typeError :=
  ⟨year_coercion_amended.1 [("id", .str "x")] rfl,
   year_coercion_amended.2.1 [("year", .num 2019)] (.num 2019) rfl,
   year_coercion_amended.2.2.1 "abc" rfl,
   year_coercion_amended.2.2.2 (Json.obj [("year", Json.null)])
     [Json.obj [("year", .num 2020)]] 2020 .typeError rfl⟩

/-- C4, counterexample: for the one-record list whose record's `year`
is the unparseable string "abc" and requested year 2020, no record's
coerced year matches, yet `get_exam_by_year` raises `ValueError`
instead of returning the absence value `None`. -/
theorem first_match_counterexample :
    List.all [Json.obj [("year", Json.str "abc")]] (fun e => !matchesYear 2020 e) = true ∧
    get_exam_by_year [Json.obj [("year", Json.str "abc")]] 2020 ≠ .ok none ∧
    get_exam_by_year [Json.obj [("year", Json.str "abc")]] 2020 = .error .valueError := by
  refine ⟨rfl, ?_, rfl⟩
  intro h
  exact Except.noConfusion h

/-- C4, amended: for every list of exam records in which each record's
year coercion succeeds (each record is a dict whose `year` value, when
present, parses as an integer), `get_exam_by_year` returns the first
record in list order whose coerced year equals the requested year, and
the absence value `None` — without raising — when no record matches.
(When some scanned record fails to coerce, the scan raises instead.) -/
theorem first_match_amended (exams : List Json) (year : Int)
    (h : ∀ e ∈ exams, yearCoercible e = true) :
    get_exam_by_year exams year = .ok (exams.find? (matchesYear year)) := by
  induction exams with
  | nil => rfl
  | cons e rest ih =>
    have he : yearCoercible e = true := h e (List.mem_cons_self e rest)
    have hrest : ∀ x ∈ rest, yearCoercible x = true :=
      fun x hx => h x (List.mem_cons_of_mem e hx)
    unfold get_exam_by_year
    cases hy : recordYear e with
    | error err =>
      rw [yearCoercible, hy] at he
      exact absurd he (by simp)
    | ok n =>
      rw [except_bind_ok]
      by_cases hn : n = year
      · rw [if_pos hn]
        have hm : matchesYear year e = true := by simp [matchesYear, hy, hn]
        simp [List.find?, hm]
      · rw [if_neg hn]
        have : matchesYear year e = false := by
          simp [matchesYear, hy]
          exact hn
        simp [List.find?, this]
        exact ih hrest

/-- Witness for C4: a duplicate-year list where the first of the two
matches is returned, and a no-match list where `None` comes back. -/
theorem first_match_amended_witness :
    get_exam_by_year
      [Json.obj [("year", .num 2020), ("id", .str "A")],
       Json.obj [("year", .num 2020), ("id", .str "B")]] 2020 =
      .ok (some (Json.obj [("year", .num 2020), ("id", .str "A")])) ∧
    get_exam_by_year [Json.obj [("year", .num 2019)]] 1998 = .ok none := by
  constructor
  · have := first_match_amended
      [Json.obj [("year", .num 2020), ("id", .str "A")],
       Json.obj [("year", .num 2020), ("id", .str "B")]] 2020 (by decide)
    rw [this]
    rfl
  · have := first_match_amended [Json.obj [("year", .num 2019)]] 1998 (by decide)
    rw [this]
    rfl

/-- The response a server under 500-overload keeps answering with. -/
def resp500 : HttpResponse := ⟨500, .null, "Internal Server Error"⟩

/-- Whether a retry outcome ended in a raised `requests.HTTPError`. -/
def RetryOutcome.raisedHTTPError (o : RetryOutcome) : Bool :=
  match o.result with
  | .error e => e.isHTTPError
  | .ok _ => false

/-- A general bound on the retry loop: with a nonnegative retry budget
`t`, at most `t + 1` attempts reach the server. -/
theorem runRetries_attempts_le (m : String) (script : List HttpResponse) :
    ∀ (t : Int) (ec : Nat), 0 ≤ t →
      (runRetries m t ec script).attempts ≤ t.toNat + 1 := by
  induction script with
  | nil =>
    intro t ec ht
    simp [runRetries]
  | cons r rest ih =>
    intro t ec ht
    unfold runRetries
    by_cases h : isRetry m r.status
    · rw [if_pos h]
      by_cases h2 : t - 1 < 0
      · rw [if_pos h2]
        dsimp only
        omega
      · rw [if_neg h2]
        dsimp only
        have := ih (t - 1) (ec + 1) (by omega)
        omega
    · rw [if_neg h]
      dsimp only
      omega

/-- C3, counterexample: with `Retry(total=3, ...)` the budget counts
*retries*, not attempts — a server answering HTTP 500 four times sees
4 attempts, refuting "at most 3 attempts in total"; and three 500s in
a row do not exhaust the retries (a fourth attempt is made and its 200
is returned), while exhaustion raises urllib3's `MaxRetryError`,
surfaced by requests as `RetryError` — not an HTTP error reporting
status 500. -/
theorem retry_policy_counterexample :
    (performGet (List.replicate 4 resp500)).attempts = 4 ∧
    ¬((performGet (List.replicate 4 resp500)).attempts ≤ 3) ∧
    (performGet (List.replicate 4 resp500)).result =
      .error (.retryError "too many 500 error responses") ∧
    (performGet (List.replicate 4 resp500)).raisedHTTPError = false ∧
    (performGet (List.replicate 3 resp500 ++ [⟨200, .num 1, "ok"⟩])).result =
      .ok ⟨200, .num 1, "ok"⟩ ∧
    (performGet (List.replicate 3 resp500 ++ [⟨200, .num 1, "ok"⟩])).attempts = 4 := by
  exact ⟨rfl, by decide, rfl, rfl, rfl, rfl⟩

/-- C3, amended: every GET request is attempted at most 4 times in
total (one initial attempt plus up to `total = 3` retries); a response
is retried only when the method is GET and the status is in
{429, 500, 502, 503, 504}; backoff sleeps follow `get_backoff_time`
with factor 0.5 — no sleep before the first retry, then
`0.5 * 2 ** (n - 1)` before the `n`-th (1.0 then 2.0 time units); and
when the server answers HTTP 500 on four consecutive attempts the
retries are exhausted and the client raises a retry-exhausted
transport error (requests `RetryError`, reported by the CLI as a
network error), not an `HTTPError` carrying status 500. -/
theorem retry_policy_amended :
    (∀ script, (performGet script).attempts ≤ 4) ∧
    (∀ r rest t ec, statusForcelist.contains r.status = false →
      runRetries "GET" t ec (r :: rest) = ⟨.ok r, 1, []⟩) ∧
    (∀ m r rest t ec, allowedMethods.contains m = false →
      runRetries m t ec (r :: rest) = ⟨.ok r, 1, []⟩) ∧
    (∀ r rest, statusForcelist.contains r.status = true →
      (performGet (r :: rest)).sleeps.head? = some (0 : Rat)) ∧
    (∀ n, 2 ≤ n → backoffTime n = backoffFactor * ((2 ^ (n - 1) : Nat) : Rat)) ∧
    ((performGet (List.replicate 4 resp500)).result =
      .error (.retryError "too many 500 error responses") ∧
     (performGet (List.replicate 4 resp500)).attempts = 4 ∧
     (performGet (List.replicate 4 resp500)).sleeps =
       [backoffTime 1, backoffTime 2, backoffTime 3] ∧
     backoffTime 1 = 0 ∧ backoffTime 2 = 1 ∧ backoffTime 3 = 2 ∧
     mainRun (fun _ => (performGet (List.replicate 4 resp500)).result) .exams =
      .failure "Erro de rede: too many 500 error responses") := by
  refine ⟨?_, ?_, ?_, ?_, ?_, rfl, rfl, rfl, rfl, ?_, ?_, rfl⟩
  · intro script
    exact runRetries_attempts_le "GET" script retryTotal 0 (by decide)
  · intro r rest t ec h
    have hc : isRetry "GET" r.status = false := by
      unfold isRetry
      rw [h, Bool.and_false]
    unfold runRetries
    rw [if_neg (by simp [hc])]
  · intro m r rest t ec h
    have hc : isRetry m r.status = false := by
      unfold isRetry
      rw [h, Bool.false_and]
    unfold runRetries
    rw [if_neg (by simp [hc])]
  · intro r rest h
    have hr : isRetry "GET" r.status = true := by
      unfold isRetry
      rw [h, Bool.and_true]
      rfl
    unfold performGet runRetries
    rw [if_pos hr, if_neg (by decide : ¬((retryTotal - 1 : Int) < 0))]
    dsimp only [List.head?]
    norm_num [backoffTime]
  · intro n hn
    rw [backoffTime, if_neg (by omega)]
  · norm_num [backoffTime, backoffFactor]
  · norm_num [backoffTime, backoffFactor]

/-- Witness for C3 at concrete inputs: the attempt bound on an
always-500 script, no retry for a 404, no retry for POST, the zero
first backoff, and the exponential formula at the second retry. -/
theorem retry_policy_amended_witness :
    (performGet (List.replicate 9 resp500)).attempts ≤ 4 ∧
    runRetries "GET" 3 0 [⟨404, .null, "nf"⟩] = ⟨.ok ⟨404, .null, "nf"⟩, 1, []⟩ ∧
    runRetries "POST" 3 0 [resp500] = ⟨.ok resp500, 1, []⟩ ∧
    (performGet [resp500, ⟨200, .null, "ok"⟩]).sleeps.head? = some (0 : Rat) ∧
    backoffTime 2 = backoffFactor * ((2 ^ (2 - 1) : Nat) : Rat) :=
  ⟨retry_policy_amended.1 (List.replicate 9 resp500),
   retry_policy_amended.2.1 ⟨404, .null, "nf"⟩ [] 3 0 rfl,
   retry_policy_amended.2.2.1 "POST" resp500 [] 3 0 rfl,
   retry_policy_amended.2.2.2.1 resp500 [⟨200, .null, "ok"⟩] rfl,
   retry_policy_amended.2.2.2.2.1 2 (by decide)⟩

/-- C5: for every invocation of the `questions` subcommand, exactly
the flags explicitly supplied (those among year, discipline, language,
page whose parsed value is not `None`) are forwarded as query
parameters and no other keys; in particular, supplying only
`year=2020` forwards exactly `year ↦ 2020`. -/
theorem questions_filter_forwarding :
    questionsParams (some 2020) none none none = [("year", Json.num 2020)] ∧
    (∀ y d l p k v, (k, v) ∈ questionsParams y d l p →
      (k = "year" ∧ ∃ n, y = some n ∧ v = Json.num n) ∨
      (k = "discipline" ∧ ∃ s, d = some s ∧ v = Json.str s) ∨
      (k = "language" ∧ ∃ s, l = some s ∧ v = Json.str s) ∨
      (k = "page" ∧ ∃ n, p = some n ∧ v = Json.num n)) ∧
    (∀ y d l p n, y = some n → ("year", Json.num n) ∈ questionsParams y d l p) ∧
    (∀ y d l p s, d = some s → ("discipline", Json.str s) ∈ questionsParams y d l p) ∧
    (∀ y d l p s, l = some s → ("language", Json.str s) ∈ questionsParams y d l p) ∧
    (∀ y d l p n, p = some n → ("page", Json.num n) ∈ questionsParams y d l p) ∧
    (∀ net, runCmd net (.questions (some 2020) none none none) =
      (list_questions net [("year", Json.num 2020)]).map
        (fun r => ExitResult.success (pretty r))) := by
  refine ⟨rfl, ?_, ?_, ?_, ?_, ?_, ?_⟩
  · intro y d l p k v h
    cases y <;> cases d <;> cases l <;> cases p <;>
      simp_all [questionsParams]
  · intro y d l p n h
    subst h
    cases d <;> cases l <;> cases p <;> simp [questionsParams]
  · intro y d l p s h
    subst h
    cases y <;> cases l <;> cases p <;> simp [questionsParams]
  · intro y d l p s h
    subst h
    cases y <;> cases d <;> cases p <;> simp [questionsParams]
  · intro y d l p n h
    subst h
    cases y <;> cases d <;> cases l <;> simp [questionsParams]
  · intro net
    show (list_questions net [("year", Json.num 2020)]) >>=
        (fun r => pure (ExitResult.success (pretty r))) =
      (list_questions net [("year", Json.num 2020)]).map
        (fun r => ExitResult.success (pretty r))
    cases list_questions net [("year", Json.num 2020)] <;> rfl

/-- Witness for C5 at concrete inputs: a fully supplied filter set, a
membership instance for each flag, and the year-only scenario against
a concrete server. -/
theorem questions_filter_forwarding_witness :
    questionsParams (some 2020) none none none = [("year", Json.num 2020)] ∧
    ("year", Json.num 2020) ∈ questionsParams (some 2020) (some "x") none none ∧
    ("discipline", Json.str "x") ∈ questionsParams (some 2020) (some "x") none none ∧
    ("language", Json.str "en") ∈ questionsParams none none (some "en") none ∧
    ("page", Json.num 2) ∈ questionsParams none none none (some 2) ∧
    runCmd (constNet (.arr [])) (.questions (some 2020) none none none) =
      (list_questions (constNet (.arr [])) [("year", Json.num 2020)]).map
        (fun r => ExitResult.success (pretty r)) :=
  ⟨questions_filter_forwarding.1,
   questions_filter_forwarding.2.2.1 (some 2020) (some "x") none none 2020 rfl,
   questions_filter_forwarding.2.2.2.1 (some 2020) (some "x") none none "x" rfl,
   questions_filter_forwarding.2.2.2.2.1 none none (some "en") none "en" rfl,
   questions_filter_forwarding.2.2.2.2.2.1 none none none (some 2) 2 rfl,
   questions_filter_forwarding.2.2.2.2.2.2 (constNet (.arr []))⟩

/-- C6: an HTTP-status error propagating to the dispatcher terminates
the process with non-zero status and a message carrying the status
code and raw body text; any other requests-level error terminates with
non-zero status and the generic network-error message; and the
intermediate layers (`list_exams`, `list_questions`, `get_question`,
and the `try:` body) catch nothing — the dispatcher is the sole
translation point. -/
theorem dispatcher_error_translation :
    (∀ net c st txt, runCmd net c = .error (.httpError st txt) →
      mainRun net c = .failure ("Erro HTTP " ++ toString st ++ ": " ++ txt) ∧
      exitCode (mainRun net c) = 1) ∧
    (∀ net c m, runCmd net c = .error (.retryError m) →
      mainRun net c = .failure ("Erro de rede: " ++ m) ∧
      exitCode (mainRun net c) = 1) ∧
    (∀ net c m, runCmd net c = .error (.connectionError m) →
      mainRun net c = .failure ("Erro de rede: " ++ m) ∧
      exitCode (mainRun net c) = 1) ∧
    (∀ net e, net examsRequest = .error e → list_exams net = .error e) ∧
    (∀ net ps e, net (questionsRequest ps) = .error e →
      list_questions net ps = .error e) ∧
    (∀ net qid e, net (questionRequest qid) = .error e →
      get_question net qid = .error e) ∧
    (∀ net e, net examsRequest = .error e → runCmd net .exams = .error e) ∧
    (∀ net qid e, net (questionRequest qid) = .error e →
      runCmd net (.question qid) = .error e) := by
  refine ⟨?_, ?_, ?_, list_exams_propagates, list_questions_propagates,
    get_question_propagates, ?_, ?_⟩
  · intro net c st txt h
    unfold mainRun
    rw [h]
    exact ⟨rfl, rfl⟩
  · intro net c m h
    unfold mainRun
    rw [h]
    exact ⟨rfl, rfl⟩
  · intro net c m h
    unfold mainRun
    rw [h]
    exact ⟨rfl, rfl⟩
  · intro net e h
    unfold runCmd
    rw [list_exams_propagates net e h, except_bind_error]
  · intro net qid e h
    simp only [runCmd]
    rw [get_question_propagates net qid e h, except_bind_error]

/-- Witness for C6 at concrete servers: a 404 reaching the dispatcher
as `HTTPError`, a retry-exhaustion `RetryError` and a connection error
both rendered as network errors, and the uncaught propagation facts. -/
theorem dispatcher_error_translation_witness :
    (mainRun (fun _ => .error (.httpError 404 "not found")) .exams =
      .failure ("Erro HTTP " ++ toString 404 ++ ": " ++ "not found") ∧
     exitCode (mainRun (fun _ => .error (.httpError 404 "not found")) .exams) = 1) ∧
    (mainRun (fun _ => .error (.retryError "too many 500 error responses"))
        (.question "q") =
      .failure ("Erro de rede: " ++ "too many 500 error responses") ∧
     exitCode (mainRun (fun _ => .error (.retryError "too many 500 error responses"))
        (.question "q")) = 1) ∧
    (mainRun (fun _ => .error (.connectionError "dns failure"))
        (.questions none none none none) =
      .failure ("Erro de rede: " ++ "dns failure") ∧
     exitCode (mainRun (fun _ => .error (.connectionError "dns failure"))
        (.questions none none none none)) = 1) ∧
    list_exams (fun _ => .error (.connectionError "dns failure")) =
      .error (.connectionError "dns failure") ∧
    runCmd (fun _ => .error (.httpError 404 "not found")) .exams =
      .error (.httpError 404 "not found") :=
  ⟨dispatcher_error_translation.1 (fun _ => .error (.httpError 404 "not found"))
     .exams 404 "not found" rfl,
   dispatcher_error_translation.2.1
     (fun _ => .error (.retryError "too many 500 error responses"))
     (.question "q") "too many 500 error responses" rfl,
   dispatcher_error_translation.2.2.1
     (fun _ => .error (.connectionError "dns failure"))
     (.questions none none none none) "dns failure" rfl,
   dispatcher_error_translation.2.2.2.1
     (fun _ => .error (.connectionError "dns failure")) (.connectionError "dns failure")
     rfl,
   dispatcher_error_translation.2.2.2.2.2.2.1
     (fun _ => .error (.httpError 404 "not found")) (.httpError 404 "not found") rfl⟩

/-- C7: every successful invocation of any subcommand prints the
result serialized by `pretty` — JSON with 2-space indentation and
non-ASCII characters left unescaped — to standard output and exits
with code 0; the concrete conjuncts exhibit the indentation and the
raw non-ASCII passthrough of the serializer. -/
theorem success_output_pretty :
    (∀ net c out, runCmd net c = .ok (.success out) →
      mainRun net c = .success out ∧ exitCode (mainRun net c) = 0) ∧
    (∀ net r, net examsRequest = .ok r → r.status < 400 →
      mainRun net .exams = .success (pretty (normalize r.body))) ∧
    (∀ net qid r, net (questionRequest qid) = .ok r → r.status < 400 →
      mainRun net (.question qid) = .success (pretty r.body)) ∧
    (∀ net y d l p r, net (questionsRequest (questionsParams y d l p)) = .ok r →
      r.status < 400 →
      mainRun net (.questions y d l p) = .success (pretty (normalize r.body))) ∧
    pretty (Json.obj [("título", Json.str "ação")]) =
      "\x7b\n  \"título\": \"ação\"\n\x7d" ∧
    pretty (Json.arr [Json.num 1, Json.num 2]) = "[\n  1,\n  2\n]" := by
  refine ⟨?_, ?_, ?_, ?_, by decide, by decide⟩
  · intro net c out h
    unfold mainRun
    rw [h]
    exact ⟨rfl, rfl⟩
  · intro net r h hs
    have hr : runCmd net .exams = .ok (.success (pretty (normalize r.body))) := by
      simp only [runCmd]
      rw [list_exams_ok net r h hs, except_bind_ok]
      rfl
    unfold mainRun
    rw [hr]
  · intro net qid r h hs
    have hr : runCmd net (.question qid) = .ok (.success (pretty r.body)) := by
      simp only [runCmd]
      rw [get_question_ok net qid r h hs, except_bind_ok]
      rfl
    unfold mainRun
    rw [hr]
  · intro net y d l p r h hs
    have hr : runCmd net (.questions y d l p) =
        .ok (.success (pretty (normalize r.body))) := by
      simp only [runCmd]
      rw [list_questions_ok net (questionsParams y d l p) r h hs, except_bind_ok]
      rfl
    unfold mainRun
    rw [hr]

/-- Witness for C7 at a concrete 200 server: the `exams` and
`question` subcommands print the pretty-printed result and exit 0. -/
theorem success_output_pretty_witness :
    mainRun (constNet (.arr [.num 1])) .exams = .success (pretty (.arr [.num 1])) ∧
    mainRun (constNet (.obj [("id", .str "abc123")])) (.question "abc123") =
      .success (pretty (.obj [("id", .str "abc123")])) ∧
    exitCode (mainRun (constNet (.arr [.num 1])) .exams) = 0 :=
  ⟨success_output_pretty.2.1 (constNet (.arr [.num 1]))
     ⟨200, .arr [.num 1], ""⟩ rfl (by decide),
   success_output_pretty.2.2.1 (constNet (.obj [("id", .str "abc123")])) "abc123"
     ⟨200, .obj [("id", .str "abc123")], ""⟩ rfl (by decide),
   (success_output_pretty.1 (constNet (.arr [.num 1])) .exams (pretty (.arr [.num 1]))
     (by
       have := success_output_pretty.2.1 (constNet (.arr [.num 1]))
         ⟨200, .arr [.num 1], ""⟩ rfl (by decide)
       rfl)).2⟩

/-- C8: `get_question` returns the decoded JSON body exactly as
decoded, with no normalization: an enveloped object or a bare array is
passed through unchanged, unlike `list_exams` / `list_questions`,
whose normalization unwraps the same enveloped body. -/
theorem get_question_passthrough :
    (∀ net qid r, net (questionRequest qid) = .ok r → r.status < 400 →
      get_question net qid = .ok r.body) ∧
    get_question (constNet (.obj [("items", .arr [.num 1])])) "q1" =
      .ok (.obj [("items", .arr [.num 1])]) ∧
    list_questions (constNet (.obj [("items", .arr [.num 1])])) [] =
      .ok (.arr [.num 1]) ∧
    Json.obj [("items", Json.arr [Json.num 1])] ≠ Json.arr [Json.num 1] ∧
    get_question (constNet (.arr [.num 2])) "q1" = .ok (.arr [.num 2]) ∧
    get_question (constNet (.num 7)) "q1" = .ok (.num 7) ∧
    normalize (Json.num 7) = .arr [.num 7] := by
  refine ⟨get_question_ok, rfl, rfl, ?_, rfl, rfl, rfl⟩
  intro h
  exact Json.noConfusion h

/-- Witness for C8: the pass-through conjunct applied to a concrete
server returning an enveloped body for the single-question endpoint. -/
theorem get_question_passthrough_witness :
    get_question (constNet (.obj [("items", .arr [])])) "xyz" =
      .ok (.obj [("items", .arr [])]) :=
  get_question_passthrough.1 (constNet (.obj [("items", .arr [])])) "xyz"
    ⟨200, .obj [("items", .arr [])], ""⟩ rfl (by decide)

/-- The concrete server of the C9 scenario: `/exams` answers 200 with
the one-record body `[ \x7b\x7d ]`. -/
def emptyRecordNet : Net := constNet (.arr [.obj []])

/-- C9: the `exam` subcommand reports not-found and exits non-zero
whenever `get_exam_by_year` returns any falsy value, not only `None`;
in particular, when the first matching record is the empty object
(which matches requested year -1, absent `year` defaulting to -1), the
CLI reports not-found even though the lookup returned a record. -/
theorem exam_falsy_not_found :
    (∀ net y r exams exam, net examsRequest = .ok r → r.status < 400 →
      pyIter (normalize r.body) = .ok exams →
      get_exam_by_year exams y = .ok exam →
      optionFalsy exam = true →
      mainRun net (.exam y) =
        .failure ("Nenhuma prova encontrada para " ++ toString y ++ ".") ∧
      exitCode (mainRun net (.exam y)) = 1) ∧
    get_exam_by_year [Json.obj []] (-1) = .ok (some (Json.obj [])) ∧
    optionFalsy (some (Json.obj [])) = true ∧
    mainRun emptyRecordNet (.exam (-1)) =
      .failure "Nenhuma prova encontrada para -1." := by
  refine ⟨?_, rfl, rfl, rfl⟩
  intro net y r exams exam h hs hi hg hf
  have hr : runCmd net (.exam y) =
      .ok (.failure ("Nenhuma prova encontrada para " ++ toString y ++ ".")) := by
    simp only [runCmd]
    rw [list_exams_ok net r h hs, except_bind_ok, hi, except_bind_ok, hg,
      except_bind_ok, if_pos hf]
    rfl
  unfold mainRun
  rw [hr]
  exact ⟨rfl, rfl⟩

/-- Witness for C9: the general falsy rule applied to the concrete
scenario server, where the lookup returns the empty record. -/
theorem exam_falsy_not_found_witness :
    mainRun emptyRecordNet (.exam (-1)) =
      .failure ("Nenhuma prova encontrada para " ++ toString (-1 : Int) ++ ".") ∧
    exitCode (mainRun emptyRecordNet (.exam (-1))) = 1 :=
  exam_falsy_not_found.1 emptyRecordNet (-1) ⟨200, .arr [.obj []], ""⟩
    [.obj []] (some (.obj [])) rfl (by decide) rfl rfl rfl

/-- C10: the library function `list_questions` forwards arbitrary
query parameters verbatim — the request it issues carries exactly the
given keys, recognized or not (the echo server sees the unrecognized
key `foo`) — while the restriction to
`{year, discipline, language, page}` lives only in the CLI layer's
filter comprehension. -/
theorem list_questions_unrestricted :
    (∀ ps, (questionsRequest ps).params = ps) ∧
    list_questions echoNet [("foo", Json.str "bar")] = .ok (.arr [.str "foo"]) ∧
    list_questions echoNet [("foo", Json.str "bar"), ("year", Json.num 2020)] =
      .ok (.arr [.str "foo", .str "year"]) ∧
    (∀ y d l p k v, (k, v) ∈ questionsParams y d l p →
      k ∈ (["year", "discipline", "language", "page"] : List String)) := by
  refine ⟨fun ps => rfl, rfl, rfl, ?_⟩
  intro y d l p k v h
  cases y <;> cases d <;> cases l <;> cases p <;>
    simp_all [questionsParams] <;> tauto

/-- Witness for C10: the verbatim-params fact at a concrete list with
an unrecognized key, and the CLI restriction at a concrete member. -/
theorem list_questions_unrestricted_witness :
    (questionsRequest [("foo", Json.str "bar")]).params = [("foo", Json.str "bar")] ∧
    "year" ∈ (["year", "discipline", "language", "page"] : List String) :=
  ⟨list_questions_unrestricted.1 [("foo", Json.str "bar")],
   list_questions_unrestricted.2.2.2 (some 2020) none none none "year" (Json.num 2020)
     (by simp [questionsParams])⟩

end EnemApi
